import Mathlib

/-!
Verification of the donation-management application (Global-crusade-donation).

Shallow embedding of the data model (donations/models.py), the currency
resolver (donations/views.py, auto_detect_currency), the payment
reconciliation views (donations/views.py and
donations/views_payment_section.py) and the notification dispatcher
(donations/email_utils.py).  Monetary amounts (Python Decimal) are modelled
as rationals, timestamps as natural-number ticks, and the relational store
as in-memory lists.  External primitives (the HMAC-SHA512 hex digest, the
JSON body parse, the SMTP transport) are passed in as function parameters,
mirroring the fact that the source treats them as opaque services.
-/

/-- Substring test helper: does the pattern list occur at the head? -/
def leadMatch : List Char → List Char → Bool
  | [], _ => true
  | _ :: _, [] => false
  | a :: as, b :: bs => a == b && leadMatch as bs

/-- Substring occurrence anywhere in the list (Python `pat in s`). -/
def occursIn (pat : List Char) : List Char → Bool
  | [] => leadMatch pat []
  | b :: bs => leadMatch pat (b :: bs) || occursIn pat bs

/-- Python `pat in s` on strings. -/
def strContains (s pat : String) : Bool :=
  occursIn pat.data s.data

/-- Python `s.endswith(suf)`. -/
def strEndsWith (s suf : String) : Bool :=
  leadMatch suf.data.reverse s.data.reverse

/-- ASCII lowercase of one character (the inputs the resolver inspects are
ASCII, where Python str.lower agrees with this). -/
def lowerChar (c : Char) : Char :=
  if 65 ≤ c.toNat ∧ c.toNat ≤ 90 then Char.ofNat (c.toNat + 32) else c

/-- Python `s.lower()` restricted to ASCII. -/
def strLower (s : String) : String :=
  ⟨s.data.map lowerChar⟩

/-- Currency codes, models.py Donation.CURRENCY_CHOICES. -/
inductive Currency
  | USD
  | NGN
  | EUR
  | GBP
deriving DecidableEq, Repr

/-- The stored three-letter code of a currency. -/
def Currency.code : Currency → String
  | .USD => "USD"
  | .NGN => "NGN"
  | .EUR => "EUR"
  | .GBP => "GBP"

/-- Donation status, models.py Donation.STATUS_CHOICES. -/
inductive Status
  | pending
  | completed
  | failed
  | refunded
deriving DecidableEq, Repr

/-- Country-token step of auto_detect_currency (views.py lines 285-292):
Python falsy country (None or "") is skipped; otherwise the lowercased
string is tested for substrings, NGN first ("nigeria" or "ng"), then the
EU list, then "uk"/"britain". -/
def countryCurrency : Option String → Option Currency
  | none => none
  | some c =>
    if c = "" then none
    else
      let cl := strLower c
      if strContains cl "nigeria" = true ∨ strContains cl "ng" = true then
        some Currency.NGN
      else if strContains cl "france" = true ∨ strContains cl "germany" = true ∨
          strContains cl "spain" = true ∨ strContains cl "italy" = true then
        some Currency.EUR
      else if strContains cl "uk" = true ∨ strContains cl "britain" = true then
        some Currency.GBP
      else none

/-- Email-suffix step of auto_detect_currency (views.py lines 294-299):
".ng"/".com.ng" give NGN, ".uk" gives GBP, nothing else is recognised. -/
def emailCurrency : Option String → Option Currency
  | none => none
  | some e =>
    if e = "" then none
    else
      let el := strLower e
      if strEndsWith el ".ng" = true ∨ strEndsWith el ".com.ng" = true then
        some Currency.NGN
      else if strEndsWith el ".uk" = true then
        some Currency.GBP
      else none

/-- views.py auto_detect_currency: bank → NGN; amount ≥ 10000 → NGN; then
the country substring rules; then the email suffix rules; default USD. -/
def auto_detect_currency (amount : ℚ) (payment_method : String)
    (country donor_email : Option String) : Currency :=
  if payment_method = "bank" then Currency.NGN
  else if 10000 ≤ amount then Currency.NGN
  else
    match countryCurrency country with
    | some c => c
    | none =>
      match emailCurrency donor_email with
      | some c => c
      | none => Currency.USD

/-- models.py Donor. -/
structure Donor where
  id : Nat
  full_name : String
  email : String
  phone : String
  country : String
deriving DecidableEq, Repr

/-- models.py Donation.  amount is the Decimal field, completed_at the
nullable timestamp, payment_reference the nullable gateway reference. -/
structure Donation where
  id : Nat
  donorId : Nat
  amount : ℚ
  currency : String
  donation_type : String
  payment_method : String
  payment_gateway : String
  payment_reference : Option String
  status : Status
  completed_at : Option Nat
deriving DecidableEq, Repr

/-- models.py CrusadeStats (the derived aggregate fields). -/
structure CrusadeStats where
  total_raised : ℚ
  total_donors : Nat
deriving DecidableEq, Repr

/-- models.py PrayerRequest. -/
structure PrayerRequest where
  id : Nat
  donorId : Nat
  donationId : Option Nat
  request_text : String
deriving DecidableEq, Repr

/-- The kinds of notification emails of email_utils.py. -/
inductive EmailKind
  | receipt
  | adminNote
  | prayerConf
  | welcome
  | monthlyPartner
  | bankInstructions
deriving DecidableEq, Repr

/-- The persistent store plus the log of dispatched emails. -/
structure DB where
  donors : List Donor
  donations : List Donation
  prayers : List PrayerRequest
  stats : CrusadeStats
  emailsSent : List EmailKind
deriving DecidableEq, Repr

/-- models.py Donation.save override: stamp completed_at on the first save
that sees status completed with a null completed_at. -/
def Donation.applySave (now : Nat) (d : Donation) : Donation :=
  if d.status = Status.completed ∧ d.completed_at = none then
    { d with completed_at := some now }
  else d

/-- Sum of the amount field over rows with status completed
(models.py update_from_donations, the aggregate Sum with `or 0`). -/
def completedSum (ds : List Donation) : ℚ :=
  ((ds.filter (fun d => d.status == Status.completed)).map (fun d => d.amount)).sum

/-- models.py CrusadeStats.update_from_donations: recompute total_raised as
the completed-amount sum and total_donors as the donor count, then save. -/
def CrusadeStats.update_from_donations (db : DB) : DB :=
  { db with
    stats := { db.stats with
      total_raised := completedSum db.donations
      total_donors := db.donors.length } }

/-- models.py Donor.total_donated: sum of amounts of this donor's
completed donations. -/
def Donor.total_donated (db : DB) (donorId : Nat) : ℚ :=
  completedSum (db.donations.filter (fun d => d.donorId == donorId))

/-- Write back one donation row by primary key. -/
def DB.putDonation (db : DB) (d : Donation) : DB :=
  { db with donations := db.donations.map (fun x => if x.id = d.id then d else x) }

/-- get_object_or_404(Donation, id=donation_id). -/
def DB.findDonation (db : DB) (did : Nat) : Option Donation :=
  db.donations.find? (fun d => d.id == did)

/-- Donation.objects.get(payment_reference=reference). -/
def DB.findByRef (db : DB) (ref : String) : Option Donation :=
  db.donations.find? (fun d => d.payment_reference == some ref)

/-- PrayerRequest.objects.filter(donation=donation).first(). -/
def DB.firstPrayerFor (db : DB) (did : Nat) : Option PrayerRequest :=
  db.prayers.find? (fun p => p.donationId == some did)

/-- Donor.objects.get_or_create lookup key. -/
def DB.findDonorByEmail (db : DB) (email : String) : Option Donor :=
  db.donors.find? (fun x => x.email == email)

/-- Append dispatched emails to the log. -/
def DB.appendEmails (db : DB) (l : List EmailKind) : DB :=
  { db with emailsSent := db.emailsSent ++ l }

/-- donor.donations.count() — all of this donor's donations, any status. -/
def donationsCountOf (db : DB) (donorId : Nat) : Nat :=
  (db.donations.filter (fun d => d.donorId == donorId)).length

/-- donor.donations.filter(status=completed).count(). -/
def completedCountOf (db : DB) (donorId : Nat) : Nat :=
  (db.donations.filter (fun d => d.donorId == donorId && d.status == Status.completed)).length

/-- email_utils.py send_all_donation_emails: the dispatch set, in source
order.  is_first_time is donor.donations.count() == 1 — a count over ALL of
the donor's donations, with no status filter. -/
def send_all_donation_emails (db : DB) (d : Donation) (pr : Option PrayerRequest) :
    List EmailKind :=
  let is_first_time := donationsCountOf db d.donorId = 1
  [EmailKind.receipt, EmailKind.adminNote]
    ++ (if pr.isSome then [EmailKind.prayerConf] else [])
    ++ (if is_first_time then [EmailKind.welcome] else [])
    ++ (if d.donation_type = "monthly" then [EmailKind.monthlyPartner] else [])
    ++ (if d.payment_method = "bank" then [EmailKind.bankInstructions] else [])

/-- The side effects every completion site performs, in source order:
recompute CrusadeStats, look up the donation's prayer request, dispatch the
notification emails. -/
def completeSideEffects (db : DB) (d : Donation) : DB :=
  let db1 := CrusadeStats.update_from_donations db
  let pr := db1.firstPrayerFor d.id
  db1.appendEmails (send_all_donation_emails db1 d pr)

/-- Paystack verify response, the fields views_payment_section.py reads:
response['status'], response['data']['status'], response['data']['amount']
(kobo). -/
structure PaystackVerifyResp where
  status : Bool
  dataStatus : String
  amountKobo : Int
deriving DecidableEq, Repr

/-- Flutterwave verify response, the fields the view reads. -/
structure FlutterwaveVerifyResp where
  status : String
  dataStatus : String
  dataTxRef : String
  dataAmount : ℚ
deriving DecidableEq, Repr

/-- views_payment_section.py lines 148-151: the paid-amount tolerance test.
Its result is only printed, never used to gate completion. -/
def amountMismatch (amountKobo : Int) (expected : ℚ) : Prop :=
  1 < |(amountKobo : ℚ) / 100 - expected|

/-- The Paystack arm of verify_payment (views_payment_section.py lines
127-181).  On data.status == 'success': mark completed, overwrite
payment_reference with the query parameter and completed_at with now, save,
recompute stats, dispatch emails — with NO already-completed check.  On
'abandoned': back to pending.  Otherwise: failed.  No branch clears
completed_at and neither of the last two recomputes stats. -/
def verify_paystack_branch (resp : PaystackVerifyResp) (reference : Option String)
    (now : Nat) (db : DB) (d : Donation) : DB :=
  match reference with
  | none => db
  | some ref =>
    if resp.status = true ∧ resp.dataStatus = "success" then
      let d1 := Donation.applySave now
        { d with status := Status.completed
                 payment_reference := some ref
                 completed_at := some now }
      completeSideEffects (db.putDonation d1) d1
    else if resp.dataStatus = "abandoned" then
      db.putDonation (Donation.applySave now { d with status := Status.pending })
    else
      db.putDonation (Donation.applySave now { d with status := Status.failed })

/-- The Flutterwave arm of verify_payment (lines 186-246): like the
Paystack arm, but requires the reported tx_ref to equal the stored
payment_reference, and takes completion from status 'successful', with
'cancelled' mapping to pending. -/
def verify_flutterwave_branch (resp : FlutterwaveVerifyResp) (transaction_id : Option String)
    (now : Nat) (db : DB) (d : Donation) : DB :=
  match transaction_id with
  | none => db
  | some _ =>
    if resp.status = "success" ∧ resp.dataStatus = "successful" then
      if some resp.dataTxRef ≠ d.payment_reference then db
      else
        let d1 := Donation.applySave now
          { d with status := Status.completed
                   completed_at := some now }
        completeSideEffects (db.putDonation d1) d1
    else if resp.dataStatus = "cancelled" then
      db.putDonation (Donation.applySave now { d with status := Status.pending })
    else
      db.putDonation (Donation.applySave now { d with status := Status.failed })

/-- views_payment_section.py verify_payment: look the donation up by id and
dispatch on its payment_gateway field. -/
def verify_payment (psResp : PaystackVerifyResp) (fwResp : FlutterwaveVerifyResp)
    (reference transaction_id : Option String) (donation_id now : Nat) (db : DB) : DB :=
  match db.findDonation donation_id with
  | none => db
  | some d =>
    if d.payment_gateway = "paystack" then
      verify_paystack_branch psResp reference now db d
    else if d.payment_gateway = "flutterwave" then
      verify_flutterwave_branch fwResp transaction_id now db d
    else db

/-- The fields paystack_webhook reads from the parsed JSON body. -/
structure PaystackEvent where
  event : String
  reference : String
deriving DecidableEq, Repr

/-- payment_utils.py PaystackPayment.verify_webhook_signature: compare the
HMAC-SHA512 hex digest of the raw body keyed with the secret against the
header value.  The digest primitive (Python hmac/hashlib) is the abstract
parameter mac. -/
def verify_webhook_signature (mac : String → String → String)
    (secret payload signature : String) : Bool :=
  mac secret payload == signature

/-- views_payment_section.py paystack_webhook.  Non-POST → 405; missing
header → 400; bad signature → 400 before the body is ever parsed; a body
json.loads cannot parse → 500 (the except arm); charge.success for a known
reference completes the donation ONLY if it is not already completed, with
stats recompute and email dispatch. -/
def paystack_webhook (mac : String → String → String)
    (parseBody : String → Option PaystackEvent)
    (secret method body : String) (signature : Option String)
    (now : Nat) (db : DB) : Nat × DB :=
  if method ≠ "POST" then (405, db)
  else
    match signature with
    | none => (400, db)
    | some sig =>
      if verify_webhook_signature mac secret body sig = false then (400, db)
      else
        match parseBody body with
        | none => (500, db)
        | some ev =>
          if ev.event = "charge.success" then
            match db.findByRef ev.reference with
            | none => (200, db)
            | some d =>
              if d.status ≠ Status.completed then
                let d1 := Donation.applySave now
                  { d with status := Status.completed, completed_at := some now }
                (200, completeSideEffects (db.putDonation d1) d1)
              else (200, db)
          else (200, db)

/-- The fields flutterwave_webhook reads from the parsed JSON body. -/
structure FlutterwaveEvent where
  event : String
  txRef : String
  dataStatus : String
deriving DecidableEq, Repr

/-- views_payment_section.py flutterwave_webhook: the verif-hash header is
compared directly against the secret (plain, non-constant-time equality in
source); charge.completed with data.status successful completes a
not-yet-completed donation. -/
def flutterwave_webhook (parseBody : String → Option FlutterwaveEvent)
    (secret method body : String) (signature : Option String)
    (now : Nat) (db : DB) : Nat × DB :=
  if method ≠ "POST" then (405, db)
  else
    match signature with
    | none => (400, db)
    | some sig =>
      if sig ≠ secret then (400, db)
      else
        match parseBody body with
        | none => (500, db)
        | some ev =>
          if ev.event = "charge.completed" then
            match db.findByRef ev.txRef with
            | none => (200, db)
            | some d =>
              if ev.dataStatus = "successful" ∧ d.status ≠ Status.completed then
                let d1 := Donation.applySave now
                  { d with status := Status.completed, completed_at := some now }
                (200, completeSideEffects (db.putDonation d1) d1)
              else (200, db)
          else (200, db)

/-- views.py manual_payment_verify (POST arm): mark a not-yet-completed
donation completed, stamp completed_at, save, recompute stats.  No email
dispatch on this path. -/
def manual_payment_verify (donation_id now : Nat) (db : DB) : DB :=
  match db.findDonation donation_id with
  | none => db
  | some d =>
    if d.status ≠ Status.completed then
      let d1 := Donation.applySave now
        { d with status := Status.completed, completed_at := some now }
      CrusadeStats.update_from_donations (db.putDonation d1)
    else db

/-- views.py delete_donation (POST arm): remove the donation, remove the
donor when no donations remain (the application-level cascade; prayer rows
follow their CASCADE foreign keys), recompute stats. -/
def delete_donation (donation_id : Nat) (db : DB) : DB :=
  match db.findDonation donation_id with
  | none => db
  | some d =>
    let db1 := { db with
      donations := db.donations.filter (fun x => x.id != donation_id)
      prayers := db.prayers.filter (fun p => p.donationId != some donation_id) }
    let remaining : Nat := (db1.donations.filter (fun x => x.donorId == d.donorId)).length
    let db2 : DB :=
      if remaining = 0 then
        { db1 with
          donors := db1.donors.filter (fun x => x.id != d.donorId)
          prayers := db1.prayers.filter (fun p => p.donorId != d.donorId) }
      else db1
    CrusadeStats.update_from_donations db2

/-- The values views.py donation_page extracts from the POST body.
amountVal is the Decimal(amount_str) parse: none models a missing or
unparseable amount string.  currency_field is the raw POST currency value,
"" when absent. -/
structure FormInput where
  payment_method : String
  payment_gateway : String
  donation_type : String
  amountVal : Option ℚ
  email : String
  full_name : String
  phone : String
  country : String
  message : String
  currency_field : String
  transaction_reference : String
deriving DecidableEq, Repr

/-- Next donor primary key. -/
def freshDonorId (db : DB) : Nat :=
  db.donors.foldl (fun m x => max m x.id) 0 + 1

/-- Next donation primary key. -/
def freshDonationId (db : DB) : Nat :=
  db.donations.foldl (fun m x => max m x.id) 0 + 1

/-- Next prayer-request primary key. -/
def freshPrayerId (db : DB) : Nat :=
  db.prayers.foldl (fun m x => max m x.id) 0 + 1

/-- The body of donation_page (views.py lines 369-435) once validation has
passed: resolve the currency, get-or-create and refresh the donor, create
the donation with status 'completed' and completed_at stamped now — before
any gateway is contacted — save, recompute stats, store the optional prayer
request, dispatch the notification emails.  The final redirect (paypal /
card gateway / bank confirmation) does not touch the store. -/
def donation_page_checked (f : FormInput) (amount : ℚ) (now : Nat) (db : DB) : DB :=
  let currency : String :=
    if f.currency_field ≠ "" then f.currency_field
    else (auto_detect_currency amount f.payment_method (some f.country) (some f.email)).code
  let donorAndDb : Donor × DB :=
    match db.findDonorByEmail f.email with
    | some ex =>
      let upd : Donor := { ex with
        full_name := f.full_name
        phone := if f.phone ≠ "" then f.phone else ex.phone
        country := if f.country ≠ "" ∧ f.country ≠ "Other" then f.country else ex.country }
      (upd, { db with donors := db.donors.map (fun x => if x.id = ex.id then upd else x) })
    | none =>
      let nd : Donor := { id := freshDonorId db, full_name := f.full_name,
                          email := f.email, phone := f.phone, country := f.country }
      (nd, { db with donors := db.donors ++ [nd] })
  let donor := donorAndDb.1
  let db1 := donorAndDb.2
  let d0 : Donation := {
    id := freshDonationId db1
    donorId := donor.id
    amount := amount
    currency := currency
    donation_type := f.donation_type
    payment_method := f.payment_method
    payment_gateway := f.payment_gateway
    payment_reference := none
    status := Status.completed
    completed_at := some now }
  let d1 := if f.transaction_reference ≠ "" then
      { d0 with payment_reference := some f.transaction_reference }
    else d0
  let d2 := Donation.applySave now d1
  let db2 := { db1 with donations := db1.donations ++ [d2] }
  let db3 := CrusadeStats.update_from_donations db2
  let prAndDb : Option PrayerRequest × DB :=
    if f.message ≠ "" then
      let p : PrayerRequest := { id := freshPrayerId db3, donorId := donor.id,
                                 donationId := some d2.id, request_text := f.message }
      (some p, { db3 with prayers := db3.prayers ++ [p] })
    else (none, db3)
  let db4 := prAndDb.2
  db4.appendEmails (send_all_donation_emails db4 d2 prAndDb.1)

/-- views.py donation_page (POST arm): the validation gate — amount, email
and full_name must be present and the amount positive — then the checked
body.  A failed validation redirects back with no store change. -/
def donation_page (f : FormInput) (now : Nat) (db : DB) : DB :=
  match f.amountVal with
  | none => db
  | some amount =>
    if amount ≤ 0 ∨ f.email = "" ∨ f.full_name = "" then db
    else donation_page_checked f amount now db

/-- The country substrings the resolver actually recognises, including the
two-letter "ng" the spec omits. -/
def countryTokens : List String :=
  ["nigeria", "ng", "france", "germany", "spain", "italy", "uk", "britain"]

/-- The email suffixes the resolver actually recognises (no EU TLDs). -/
def emailSuffixTokens : List String :=
  [".ng", ".com.ng", ".uk"]

/-- A donor whose only donation is still pending. -/
def donorAda : Donor :=
  { id := 1, full_name := "Ada", email := "a@b.com", phone := "", country := "Nigeria" }

/-- A pending Paystack donation of amount 100. -/
def pendingDonation : Donation :=
  { id := 1, donorId := 1, amount := 100, currency := "NGN",
    donation_type := "one-time", payment_method := "card",
    payment_gateway := "paystack", payment_reference := some "REF1",
    status := Status.pending, completed_at := none }

/-- Store holding donorAda with the single pending donation. -/
def dbPendingOnly : DB :=
  { donors := [donorAda], donations := [pendingDonation], prayers := [],
    stats := { total_raised := 0, total_donors := 1 }, emailsSent := [] }

/-- email_utils.py: every send_X traps its own transport failure in a
try/except and reports it as a Bool (e.g. lines 72-77); raw models the SMTP
transport outcome for each message. -/
def sendWrapped (raw : EmailKind → Except String Unit) (k : EmailKind) : Bool :=
  match raw k with
  | Except.ok _ => true
  | Except.error _ => false

/-- send_all_donation_emails with per-message trapping: the whole selected
set is attempted in source order, each message paired with its outcome. -/
def send_all_attempts (raw : EmailKind → Except String Unit) (db : DB) (d : Donation)
    (pr : Option PrayerRequest) : List (EmailKind × Bool) :=
  (send_all_donation_emails db d pr).map (fun k => (k, sendWrapped raw k))

/-- A successful Paystack verify response for 100 NGN (10000 kobo). -/
def respSuccess : PaystackVerifyResp :=
  { status := true, dataStatus := "success", amountKobo := 10000 }

/-- A failed Paystack verify response. -/
def respFailed : PaystackVerifyResp :=
  { status := false, dataStatus := "failed", amountKobo := 0 }

/-- An unused Flutterwave response for calls that take the Paystack arm. -/
def fwIdle : FlutterwaveVerifyResp :=
  { status := "", dataStatus := "", dataTxRef := "", dataAmount := 0 }

/-- The store after one successful redirect-callback verification of the
pending donation, at tick 10. -/
def dbAfterFirstVerify : DB :=
  verify_payment respSuccess fwIdle (some "REF1") none 1 10 dbPendingOnly

/-- The store after the same verification is replayed at tick 20. -/
def dbAfterSecondVerify : DB :=
  verify_payment respSuccess fwIdle (some "REF1") none 1 20 dbAfterFirstVerify

/-- The pending donation already completed at tick 5. -/
def completedDonation : Donation :=
  { pendingDonation with status := Status.completed, completed_at := some 5 }

/-- Store holding the completed donation, with stats consistent (100 raised). -/
def dbCompleted : DB :=
  { donors := [donorAda], donations := [completedDonation], prayers := [],
    stats := { total_raised := 100, total_donors := 1 }, emailsSent := [] }

/-- The completed store after a verify callback whose gateway response
reports failure, at tick 10. -/
def dbFailedAfterCompleted : DB :=
  verify_payment respFailed fwIdle (some "REF1") none 1 10 dbCompleted

/-- A card-method form submission for 5000 by a new donor. -/
def formCard : FormInput :=
  { payment_method := "card", payment_gateway := "paystack",
    donation_type := "one-time", amountVal := some 5000,
    email := "new@x.com", full_name := "New Donor", phone := "",
    country := "Nigeria", message := "", currency_field := "",
    transaction_reference := "" }

/-- The empty store. -/
def dbEmpty : DB :=
  { donors := [], donations := [], prayers := [],
    stats := { total_raised := 0, total_donors := 0 }, emailsSent := [] }

/-- A completed row must carry a timestamp. -/
def stampOk (d : Donation) : Prop :=
  d.status = Status.completed → d.completed_at ≠ none

/-- The one-directional completion-stamp invariant over the store. -/
def CompletedStampInv (db : DB) : Prop :=
  ∀ d ∈ db.donations, stampOk d

/-- One request of the system: any of the modelled state-changing
operations with arbitrary request data (form post, redirect-callback
verification, either webhook, manual admin verification, admin deletion). -/
inductive Step : DB → DB → Prop
  | page (f : FormInput) (now : Nat) (db : DB) :
      Step db (donation_page f now db)
  | verify (ps : PaystackVerifyResp) (fw : FlutterwaveVerifyResp)
      (ref tid : Option String) (did now : Nat) (db : DB) :
      Step db (verify_payment ps fw ref tid did now db)
  | psHook (mac : String → String → String)
      (parseBody : String → Option PaystackEvent)
      (secret method body : String) (sig : Option String) (now : Nat) (db : DB) :
      Step db (paystack_webhook mac parseBody secret method body sig now db).2
  | fwHook (parseBody : String → Option FlutterwaveEvent)
      (secret method body : String) (sig : Option String) (now : Nat) (db : DB) :
      Step db (flutterwave_webhook parseBody secret method body sig now db).2
  | manual (did now : Nat) (db : DB) :
      Step db (manual_payment_verify did now db)
  | del (did : Nat) (db : DB) :
      Step db (delete_donation did db)

/-- Stats consistency: the stored aggregate equals the completed-amount
sum of the current donation table. -/
def StatsInv (db : DB) : Prop :=
  db.stats.total_raised = completedSum db.donations

/-- The branches of the modelled operations that end in a stats
recomputation, with the request data that drives each into that branch. -/
inductive RecomputingStep : DB → DB → Prop
  | page (f : FormInput) (now : Nat) (db : DB) (a : ℚ)
      (ha : f.amountVal = some a) (hpos : 0 < a)
      (he : f.email ≠ "") (hn : f.full_name ≠ "") :
      RecomputingStep db (donation_page f now db)
  | verifyPs (ps : PaystackVerifyResp) (fw : FlutterwaveVerifyResp) (ref : String)
      (tid : Option String) (did now : Nat) (db : DB) (d : Donation)
      (hd : db.findDonation did = some d) (hg : d.payment_gateway = "paystack")
      (hs : ps.status = true) (hds : ps.dataStatus = "success") :
      RecomputingStep db (verify_payment ps fw (some ref) tid did now db)
  | verifyFw (ps : PaystackVerifyResp) (fw : FlutterwaveVerifyResp)
      (ref : Option String) (tid : String) (did now : Nat) (db : DB) (d : Donation)
      (hd : db.findDonation did = some d) (hg : d.payment_gateway = "flutterwave")
      (hs : fw.status = "success") (hds : fw.dataStatus = "successful")
      (htx : some fw.dataTxRef = d.payment_reference) :
      RecomputingStep db (verify_payment ps fw ref (some tid) did now db)
  | psHook (mac : String → String → String)
      (parseBody : String → Option PaystackEvent) (secret body sig : String)
      (now : Nat) (db : DB) (ev : PaystackEvent) (d : Donation)
      (hsig : verify_webhook_signature mac secret body sig = true)
      (hp : parseBody body = some ev) (hev : ev.event = "charge.success")
      (hd : db.findByRef ev.reference = some d) (hnc : d.status ≠ Status.completed) :
      RecomputingStep db
        (paystack_webhook mac parseBody secret "POST" body (some sig) now db).2
  | fwHook (parseBody : String → Option FlutterwaveEvent) (secret body : String)
      (now : Nat) (db : DB) (ev : FlutterwaveEvent) (d : Donation)
      (hp : parseBody body = some ev) (hev : ev.event = "charge.completed")
      (hd : db.findByRef ev.txRef = some d)
      (hds : ev.dataStatus = "successful") (hnc : d.status ≠ Status.completed) :
      RecomputingStep db
        (flutterwave_webhook parseBody secret "POST" body (some secret) now db).2
  | manual (did now : Nat) (db : DB) (d : Donation)
      (hd : db.findDonation did = some d) (hnc : d.status ≠ Status.completed) :
      RecomputingStep db (manual_payment_verify did now db)
  | del (did : Nat) (db : DB) (d : Donation) (hd : db.findDonation did = some d) :
      RecomputingStep db (delete_donation did db)

theorem countryCurrency_eq_none (c : String)
    (hc : ∀ t ∈ countryTokens, strContains (strLower c) t = false) :
    countryCurrency (some c) = none := by
  have h1 := hc "nigeria" (by simp [countryTokens])
  have h2 := hc "ng" (by simp [countryTokens])
  have h3 := hc "france" (by simp [countryTokens])
  have h4 := hc "germany" (by simp [countryTokens])
  have h5 := hc "spain" (by simp [countryTokens])
  have h6 := hc "italy" (by simp [countryTokens])
  have h7 := hc "uk" (by simp [countryTokens])
  have h8 := hc "britain" (by simp [countryTokens])
  by_cases hce : c = ""
  · simp [countryCurrency, hce]
  · simp [countryCurrency, hce, h1, h2, h3, h4, h5, h6, h7, h8]

theorem emailCurrency_eq_none (e : String)
    (he : ∀ s ∈ emailSuffixTokens, strEndsWith (strLower e) s = false) :
    emailCurrency (some e) = none := by
  have h1 := he ".ng" (by simp [emailSuffixTokens])
  have h2 := he ".com.ng" (by simp [emailSuffixTokens])
  have h3 := he ".uk" (by simp [emailSuffixTokens])
  by_cases hee : e = ""
  · simp [emailCurrency, hee]
  · simp [emailCurrency, hee, h1, h2, h3]

/-- C6: the currency resolver is total and deterministic — on every input,
including absent country and email, it returns exactly one of the four
currency codes (and, being a function, two calls on the same input agree). -/
theorem auto_detect_currency_total (amount : ℚ) (pm : String)
    (country email : Option String) :
    (auto_detect_currency amount pm country email = Currency.USD ∨
     auto_detect_currency amount pm country email = Currency.NGN ∨
     auto_detect_currency amount pm country email = Currency.EUR ∨
     auto_detect_currency amount pm country email = Currency.GBP) ∧
    auto_detect_currency amount pm country email =
      auto_detect_currency amount pm country email := by
  refine ⟨?_, rfl⟩
  cases h : auto_detect_currency amount pm country email <;> simp

/-- C5, counterexample: the country "Congo" contains none of the tokens the
spec lists (nigeria, the EU list, uk, britain) and the email a@b.com ends
in none of the recognised suffixes, yet the resolver returns NGN, not the
claimed USD default — because the code also matches the bare substring
"ng". -/
theorem auto_detect_currency_congo_counterexample :
    strLower "Congo" = "congo" ∧
    strContains "congo" "nigeria" = false ∧
    strContains "congo" "france" = false ∧
    strContains "congo" "germany" = false ∧
    strContains "congo" "spain" = false ∧
    strContains "congo" "italy" = false ∧
    strContains "congo" "uk" = false ∧
    strContains "congo" "britain" = false ∧
    strEndsWith "a@b.com" ".ng" = false ∧
    strEndsWith "a@b.com" ".uk" = false ∧
    strEndsWith "a@b.com" ".fr" = false ∧
    strEndsWith "a@b.com" ".de" = false ∧
    strEndsWith "a@b.com" ".es" = false ∧
    strEndsWith "a@b.com" ".it" = false ∧
    strEndsWith "a@b.com" ".eu" = false ∧
    "card" ≠ "bank" ∧ (50 : ℚ) < 10000 ∧
    auto_detect_currency 50 "card" (some "Congo") (some "a@b.com") = Currency.NGN ∧
    Currency.NGN ≠ Currency.USD := by
  decide

/-- C5, amended: with payment method other than bank and amount below
10000, the resolver returns the USD default exactly when the lowercased
country contains none of the recognised substrings — which include the
bare "ng", not just "nigeria" — and the lowercased email ends in none of
.ng/.com.ng/.uk (there is no EU-TLD email rule); and the country rule maps
to NGN whenever the country contains the substring "ng" (hence for
"nigeria" as a special case). -/
theorem auto_detect_currency_default_usd (amount : ℚ) (pm country email : String)
    (hb : pm ≠ "bank") (hamt : amount < 10000)
    (hc : ∀ t ∈ countryTokens, strContains (strLower country) t = false)
    (he : ∀ s ∈ emailSuffixTokens, strEndsWith (strLower email) s = false) :
    auto_detect_currency amount pm (some country) (some email) = Currency.USD ∧
    ∀ c : String, c ≠ "" → strContains (strLower c) "ng" = true →
      auto_detect_currency amount pm (some c) (some email) = Currency.NGN := by
  constructor
  · simp [auto_detect_currency, hb, not_le.mpr hamt,
      countryCurrency_eq_none country hc, emailCurrency_eq_none email he]
  · intro c hc0 hng
    have hcc : countryCurrency (some c) = some Currency.NGN := by
      simp [countryCurrency, hc0, hng]
    simp [auto_detect_currency, hb, not_le.mpr hamt, hcc]

/-- Witness for the amended C5 at concrete inputs: "Japan" matches nothing
and resolves USD; "Kingdom" contains "ng" and resolves NGN. -/
theorem auto_detect_currency_default_usd_witness :
    auto_detect_currency 50 "card" (some "Japan") (some "a@b.com") = Currency.USD ∧
    auto_detect_currency 50 "card" (some "Kingdom") (some "a@b.com") = Currency.NGN :=
  ⟨(auto_detect_currency_default_usd 50 "card" "Japan" "a@b.com"
      (by decide) (by decide) (by decide) (by decide)).1,
   (auto_detect_currency_default_usd 50 "card" "Japan" "a@b.com"
      (by decide) (by decide) (by decide) (by decide)).2 "Kingdom" (by decide) (by decide)⟩

/-- C7, counterexample: dispatching the notification set for a donor whose
completed-donation count is 0 (their single donation is pending) still
sends the welcome email, because the code tests donations.count() == 1
over all statuses, not the completed count the claim states. -/
theorem welcome_email_counterexample :
    completedCountOf dbPendingOnly 1 = 0 ∧
    EmailKind.welcome ∈ send_all_donation_emails dbPendingOnly pendingDonation none := by
  decide

/-- C7, amended: the welcome email is dispatched exactly when the donor's
TOTAL donation count — across all statuses, not only completed — equals
one. -/
theorem welcome_email_iff_total_count_one (db : DB) (d : Donation)
    (pr : Option PrayerRequest) :
    EmailKind.welcome ∈ send_all_donation_emails db d pr ↔
      donationsCountOf db d.donorId = 1 := by
  by_cases h1 : donationsCountOf db d.donorId = 1 <;>
  by_cases h2 : pr.isSome = true <;>
  by_cases h3 : d.donation_type = "monthly" <;>
  by_cases h4 : d.payment_method = "bank" <;>
  simp [send_all_donation_emails, h1, h2, h3, h4]

/-- C8: whatever subset of the notification emails fails, every email of
the dispatch set is still attempted (the attempted sequence does not depend
on the transport outcomes), each failure is trapped individually and
reported as false rather than raised, and the dispatcher never touches the
store — it only returns the attempt log. -/
theorem email_failures_isolated (raw raw2 : EmailKind → Except String Unit)
    (db : DB) (d : Donation) (pr : Option PrayerRequest) :
    (send_all_attempts raw db d pr).map Prod.fst = send_all_donation_emails db d pr ∧
    (send_all_attempts raw db d pr).map Prod.fst =
      (send_all_attempts raw2 db d pr).map Prod.fst ∧
    ∀ k, (sendWrapped raw k = false ↔ ∃ e, raw k = Except.error e) := by
  refine ⟨?_, ?_, ?_⟩
  · simp [send_all_attempts, List.map_map, Function.comp_def]
  · simp [send_all_attempts, List.map_map, Function.comp_def]
  · intro k
    cases h : raw k <;> simp [sendWrapped, h]

theorem completedSum_cons (a : Donation) (l : List Donation) :
    completedSum (a :: l) =
      (if a.status = Status.completed then a.amount else 0) + completedSum l := by
  by_cases h : a.status = Status.completed <;>
    simp [completedSum, List.filter_cons, h]

theorem completedSum_append (l1 l2 : List Donation) :
    completedSum (l1 ++ l2) = completedSum l1 + completedSum l2 := by
  simp [completedSum, List.filter_append]

theorem completedSum_map_currency (f : Donation → String) (l : List Donation) :
    completedSum (l.map fun x => { x with currency := f x }) = completedSum l := by
  induction l with
  | nil => rfl
  | cons a tl ih => simp [completedSum_cons, ih]

/-- C10: the aggregates read only status and amount — rewriting every row's
currency arbitrarily changes neither the completed sum behind total_raised
nor any donor's total_donated, and appending a completed donation of
amount X raises the completed sum by exactly X, whatever its currency. -/
theorem aggregates_ignore_currency (ds : List Donation) (f : Donation → String)
    (d : Donation) (db : DB) (i : Nat) :
    completedSum (ds.map fun x => { x with currency := f x }) = completedSum ds ∧
    (d.status = Status.completed → completedSum (ds ++ [d]) = completedSum ds + d.amount) ∧
    Donor.total_donated
        { db with donations := db.donations.map fun x => { x with currency := f x } } i
      = Donor.total_donated db i := by
  refine ⟨completedSum_map_currency f ds, ?_, ?_⟩
  · intro h
    simp [completedSum_append, completedSum_cons, completedSum, h]
  · unfold Donor.total_donated
    have hfl : ((db.donations.map fun x => { x with currency := f x }).filter
          (fun x => x.donorId == i))
        = (db.donations.filter (fun x => x.donorId == i)).map
            fun x => { x with currency := f x } := by
      induction db.donations with
      | nil => rfl
      | cons a tl ih =>
        by_cases ha : (a.donorId == i) = true <;>
          simp [List.filter_cons, ha, ih]
    rw [hfl, completedSum_map_currency]

/-- Witness for the conditional part of the currency-blindness theorem: a
completed 100-unit donation raises the completed sum of the empty table to
100. -/
theorem aggregates_ignore_currency_witness :
    completedSum ([] ++ [{ pendingDonation with status := Status.completed }]) =
      completedSum [] + ({ pendingDonation with status := Status.completed } : Donation).amount :=
  (aggregates_ignore_currency [] (fun _ => "USD")
    { pendingDonation with status := Status.completed } dbPendingOnly 1).2.1 rfl

/-- C4: whenever the X-Paystack-Signature header is absent, or present but
different from the HMAC-SHA512 digest of the raw body under the secret,
the Paystack webhook answers 400 and the store is returned untouched — no
donation write, no stats recompute, no email — whatever the body parser
would have produced: the signature check runs before the body is used. -/
theorem webhook_rejects_bad_signature (mac : String → String → String)
    (parseBody : String → Option PaystackEvent) (secret body : String)
    (sig : Option String) (now : Nat) (db : DB)
    (hbad : ∀ s, sig = some s → verify_webhook_signature mac secret body s = false) :
    paystack_webhook mac parseBody secret "POST" body sig now db = (400, db) := by
  cases sig with
  | none => simp [paystack_webhook]
  | some s => simp [paystack_webhook, hbad s rfl]

/-- Witness: a concrete digest function and a header that does not match
it are answered 400 on the pending-donation store. -/
theorem webhook_rejects_bad_signature_witness :
    paystack_webhook (fun s b => s ++ b) (fun _ => none) "sk" "POST" "BODY"
      (some "WRONG") 5 dbPendingOnly = (400, dbPendingOnly) :=
  webhook_rejects_bad_signature (fun s b => s ++ b) (fun _ => none) "sk" "BODY"
    (some "WRONG") 5 dbPendingOnly
    (fun s hs => by
      rw [Option.some_inj] at hs
      subst hs
      decide)

/-- C1, counterexample: replaying a successful verify for the same provider
reference is NOT a no-op — verify_payment has no already-completed check,
so the second call overwrites completed_at (10 becomes 20) and dispatches
the whole notification set a second time (two receipts in the log). -/
theorem verify_twice_counterexample :
    (dbAfterFirstVerify.findDonation 1).map Donation.completed_at = some (some 10) ∧
    (dbAfterSecondVerify.findDonation 1).map Donation.completed_at = some (some 20) ∧
    dbAfterFirstVerify.emailsSent.count EmailKind.receipt = 1 ∧
    dbAfterSecondVerify.emailsSent.count EmailKind.receipt = 2 := by
  decide

/-- C2, counterexample: running verify_payment on an already-completed
donation with a failed gateway response moves status to failed but leaves
completed_at set (still tick 5), so completed_at non-null no longer
implies status completed — the claimed two-way invariant fails. -/
theorem completed_at_iff_counterexample :
    (dbFailedAfterCompleted.findDonation 1).map Donation.status = some Status.failed ∧
    (dbFailedAfterCompleted.findDonation 1).map Donation.completed_at = some (some 5) := by
  decide

/-- C3, counterexample: the same failed re-verification changes the
donation's status (completed to failed) WITHOUT recomputing CrusadeStats:
total_raised stays 100 while the completed-amount sum is now 0, so the
aggregate is left stale after a status change. -/
theorem stats_stale_counterexample :
    (dbFailedAfterCompleted.findDonation 1).map Donation.status = some Status.failed ∧
    dbFailedAfterCompleted.stats.total_raised = 100 ∧
    completedSum dbFailedAfterCompleted.donations = 0 := by
  decide

theorem applySave_of_stamped {d : Donation} {now : Nat}
    (h : d.completed_at ≠ none) : Donation.applySave now d = d := by
  unfold Donation.applySave
  rw [if_neg]
  rintro ⟨-, h2⟩
  exact h h2

theorem receipt_mem_send_all (db : DB) (d : Donation) (pr : Option PrayerRequest) :
    EmailKind.receipt ∈ send_all_donation_emails db d pr := by
  unfold send_all_donation_emails
  simp

/-- Shape of donation_page_checked: whatever the form says, the new
donation row is appended with status completed and completed_at = now, the
stats are recomputed from the post-insert table, and a notification batch
containing the receipt is appended to the email log. -/
theorem donation_page_checked_shape (f : FormInput) (amount : ℚ) (now : Nat) (db : DB) :
    ∃ (d : Donation) (donors2 : List Donor) (prayers2 : List PrayerRequest)
      (ems : List EmailKind),
      donation_page_checked f amount now db =
        { donors := donors2
          donations := db.donations ++ [d]
          prayers := prayers2
          stats := { total_raised := completedSum (db.donations ++ [d])
                     total_donors := donors2.length }
          emailsSent := db.emailsSent ++ ems } ∧
      d.status = Status.completed ∧ d.completed_at = some now ∧
      d.amount = amount ∧ d.payment_method = f.payment_method ∧
      EmailKind.receipt ∈ ems := by
  simp only [donation_page_checked]
  cases hdon : db.findDonorByEmail f.email <;>
    simp only [DB.appendEmails, CrusadeStats.update_from_donations] <;>
    split_ifs <;>
    refine ⟨_, _, _, _, rfl, ?_, ?_, ?_, ?_, receipt_mem_send_all _ _ _⟩ <;>
    simp [Donation.applySave]

/-- C9: every submission accepted by the public donation form — any
payment method, card and paypal included — is persisted already completed:
the created row has status completed and completed_at = now (before any
gateway interaction: donation_page takes no gateway response at all), the
recomputed total_raised immediately includes its amount, and a
notification batch containing the receipt is dispatched at once. -/
theorem donation_page_autocompletes (f : FormInput) (now : Nat) (db : DB) (a : ℚ)
    (ha : f.amountVal = some a) (hpos : 0 < a)
    (he : f.email ≠ "") (hn : f.full_name ≠ "") :
    ∃ (d : Donation) (ems : List EmailKind),
      d ∈ (donation_page f now db).donations ∧
      d.payment_method = f.payment_method ∧
      d.status = Status.completed ∧ d.completed_at = some now ∧ d.amount = a ∧
      (donation_page f now db).stats.total_raised = completedSum db.donations + a ∧
      (donation_page f now db).emailsSent = db.emailsSent ++ ems ∧
      EmailKind.receipt ∈ ems := by
  have hpage : donation_page f now db = donation_page_checked f a now db := by
    simp [donation_page, ha, not_le.mpr hpos, he, hn]
  rcases donation_page_checked_shape f a now db with
    ⟨d, donors2, prayers2, ems, heq, hst, hca, ham, hpm, hrec⟩
  refine ⟨d, ems, ?_, hpm, hst, hca, ham, ?_, ?_, hrec⟩
  · rw [hpage, heq]; simp
  · rw [hpage, heq]
    simp [completedSum_append, completedSum_cons, completedSum, hst, ham]
  · rw [hpage, heq]

/-- Witness: the concrete card-method submission is created completed and
counted at once. -/
theorem donation_page_autocompletes_witness :
    ∃ (d : Donation) (ems : List EmailKind),
      d ∈ (donation_page formCard 3 dbEmpty).donations ∧
      d.payment_method = formCard.payment_method ∧
      d.status = Status.completed ∧ d.completed_at = some 3 ∧ d.amount = 5000 ∧
      (donation_page formCard 3 dbEmpty).stats.total_raised =
        completedSum dbEmpty.donations + 5000 ∧
      (donation_page formCard 3 dbEmpty).emailsSent = dbEmpty.emailsSent ++ ems ∧
      EmailKind.receipt ∈ ems :=
  donation_page_autocompletes formCard 3 dbEmpty 5000 rfl
    (by decide) (by decide) (by decide)

theorem stampOk_applySave (now : Nat) (d : Donation) :
    stampOk (Donation.applySave now d) := by
  unfold Donation.applySave stampOk
  by_cases h : d.status = Status.completed ∧ d.completed_at = none
  · rw [if_pos h]
    intro _ hn
    simp at hn
  · rw [if_neg h]
    intro hs hn
    exact h ⟨hs, hn⟩

theorem inv_of_donations_eq {db db2 : DB} (h : db2.donations = db.donations)
    (hdb : CompletedStampInv db) : CompletedStampInv db2 := by
  intro x hx
  rw [h] at hx
  exact hdb x hx

theorem inv_putDonation {db : DB} {d : Donation}
    (hdb : CompletedStampInv db) (hd : stampOk d) :
    CompletedStampInv (db.putDonation d) := by
  intro x hx
  have hx2 : x ∈ db.donations.map (fun y => if y.id = d.id then d else y) := hx
  rcases List.mem_map.mp hx2 with ⟨y, hy, hxy⟩
  by_cases hid : y.id = d.id
  · rw [if_pos hid] at hxy
    exact hxy ▸ hd
  · rw [if_neg hid] at hxy
    exact hxy ▸ hdb y hy

theorem inv_completeSideEffects {db : DB} (d : Donation)
    (hdb : CompletedStampInv db) : CompletedStampInv (completeSideEffects db d) :=
  inv_of_donations_eq rfl hdb

theorem inv_update_from_donations {db : DB} (hdb : CompletedStampInv db) :
    CompletedStampInv (CrusadeStats.update_from_donations db) :=
  inv_of_donations_eq rfl hdb

theorem inv_verify_paystack_branch (resp : PaystackVerifyResp) (ref : Option String)
    (now : Nat) (db : DB) (d : Donation) (hdb : CompletedStampInv db) :
    CompletedStampInv (verify_paystack_branch resp ref now db d) := by
  unfold verify_paystack_branch
  cases ref with
  | none => exact hdb
  | some r =>
    split_ifs with h1 h2
    · exact inv_completeSideEffects _ (inv_putDonation hdb (stampOk_applySave _ _))
    · exact inv_putDonation hdb (stampOk_applySave _ _)
    · exact inv_putDonation hdb (stampOk_applySave _ _)

theorem inv_verify_flutterwave_branch (resp : FlutterwaveVerifyResp) (tid : Option String)
    (now : Nat) (db : DB) (d : Donation) (hdb : CompletedStampInv db) :
    CompletedStampInv (verify_flutterwave_branch resp tid now db d) := by
  unfold verify_flutterwave_branch
  cases tid with
  | none => exact hdb
  | some t =>
    split_ifs <;>
      first
        | exact hdb
        | exact inv_completeSideEffects _ (inv_putDonation hdb (stampOk_applySave _ _))
        | exact inv_putDonation hdb (stampOk_applySave _ _)

theorem inv_verify_payment (ps : PaystackVerifyResp) (fw : FlutterwaveVerifyResp)
    (ref tid : Option String) (did now : Nat) (db : DB) (hdb : CompletedStampInv db) :
    CompletedStampInv (verify_payment ps fw ref tid did now db) := by
  cases hfd : db.findDonation did with
  | none =>
    simp only [verify_payment, hfd]
    exact hdb
  | some d =>
    simp only [verify_payment, hfd]
    split_ifs
    · exact inv_verify_paystack_branch ps ref now db d hdb
    · exact inv_verify_flutterwave_branch fw tid now db d hdb
    · exact hdb

theorem inv_paystack_webhook (mac : String → String → String)
    (parseBody : String → Option PaystackEvent) (secret method body : String)
    (sig : Option String) (now : Nat) (db : DB) (hdb : CompletedStampInv db) :
    CompletedStampInv (paystack_webhook mac parseBody secret method body sig now db).2 := by
  cases sig with
  | none =>
    simp only [paystack_webhook]
    split_ifs <;> exact hdb
  | some s =>
    cases hp : parseBody body with
    | none =>
      simp only [paystack_webhook, hp]
      split_ifs <;> exact hdb
    | some ev =>
      cases hf : db.findByRef ev.reference with
      | none =>
        simp only [paystack_webhook, hp, hf]
        split_ifs <;> exact hdb
      | some d =>
        simp only [paystack_webhook, hp, hf]
        split_ifs <;>
          first
            | exact hdb
            | exact inv_completeSideEffects _ (inv_putDonation hdb (stampOk_applySave _ _))

theorem inv_flutterwave_webhook (parseBody : String → Option FlutterwaveEvent)
    (secret method body : String) (sig : Option String) (now : Nat) (db : DB)
    (hdb : CompletedStampInv db) :
    CompletedStampInv (flutterwave_webhook parseBody secret method body sig now db).2 := by
  cases sig with
  | none =>
    simp only [flutterwave_webhook]
    split_ifs <;> exact hdb
  | some s =>
    cases hp : parseBody body with
    | none =>
      simp only [flutterwave_webhook, hp]
      split_ifs <;> exact hdb
    | some ev =>
      cases hf : db.findByRef ev.txRef with
      | none =>
        simp only [flutterwave_webhook, hp, hf]
        split_ifs <;> exact hdb
      | some d =>
        simp only [flutterwave_webhook, hp, hf]
        split_ifs <;>
          first
            | exact hdb
            | exact inv_completeSideEffects _ (inv_putDonation hdb (stampOk_applySave _ _))

theorem inv_manual_payment_verify (did now : Nat) (db : DB)
    (hdb : CompletedStampInv db) :
    CompletedStampInv (manual_payment_verify did now db) := by
  cases hfd : db.findDonation did with
  | none =>
    simp only [manual_payment_verify, hfd]
    exact hdb
  | some d =>
    simp only [manual_payment_verify, hfd]
    split_ifs
    · exact inv_update_from_donations (inv_putDonation hdb (stampOk_applySave _ _))
    · exact hdb

theorem inv_delete_donation (did : Nat) (db : DB) (hdb : CompletedStampInv db) :
    CompletedStampInv (delete_donation did db) := by
  cases hfd : db.findDonation did with
  | none =>
    simp only [delete_donation, hfd]
    exact hdb
  | some d =>
    simp only [delete_donation, hfd]
    split_ifs <;>
      · intro x hx
        have hx2 : x ∈ db.donations.filter (fun y => y.id != did) := hx
        exact hdb x (List.mem_of_mem_filter hx2)

theorem inv_donation_page (f : FormInput) (now : Nat) (db : DB)
    (hdb : CompletedStampInv db) :
    CompletedStampInv (donation_page f now db) := by
  cases ha : f.amountVal with
  | none =>
    simp only [donation_page, ha]
    exact hdb
  | some a =>
    simp only [donation_page, ha]
    split_ifs with h
    · exact hdb
    · rcases donation_page_checked_shape f a now db with
        ⟨d, donors2, prayers2, ems, heq, hst, hca, -, -, -⟩
      rw [heq]
      intro x hx
      have hx2 : x ∈ db.donations ++ [d] := hx
      rcases List.mem_append.mp hx2 with hm | hm
      · exact hdb x hm
      · rw [List.mem_singleton.mp hm]
        intro _
        rw [hca]
        simp

/-- C2, amended: the claimed two-way invariant fails (see the
counterexample), but its forward half is preserved by every modelled
operation: whenever a store in which every completed donation carries a
completed_at timestamp takes any step, every completed donation of the
resulting store still carries one.  (The claimed converse and the
write-exactly-once property are what the failed re-verification and the
replayed verification break.) -/
theorem completed_stamp_invariant_preserved {db db2 : DB}
    (hdb : CompletedStampInv db) (h : Step db db2) : CompletedStampInv db2 := by
  cases h with
  | page f now db => exact inv_donation_page f now db hdb
  | verify ps fw ref tid did now db => exact inv_verify_payment ps fw ref tid did now db hdb
  | psHook mac parseBody secret method body sig now db =>
    exact inv_paystack_webhook mac parseBody secret method body sig now db hdb
  | fwHook parseBody secret method body sig now db =>
    exact inv_flutterwave_webhook parseBody secret method body sig now db hdb
  | manual did now db => exact inv_manual_payment_verify did now db hdb
  | del did db => exact inv_delete_donation did db hdb

/-- Witness: the pending store satisfies the invariant and keeps it across
a concrete manual-verification step. -/
theorem completed_stamp_invariant_preserved_witness :
    CompletedStampInv (manual_payment_verify 1 0 dbPendingOnly) :=
  completed_stamp_invariant_preserved
    (by
      intro d hd
      have hd2 : d ∈ [pendingDonation] := hd
      rw [List.mem_singleton.mp hd2]
      exact fun h => absurd h (by decide))
    (Step.manual 1 0 dbPendingOnly)

theorem statsInv_update_from_donations (db : DB) :
    StatsInv (CrusadeStats.update_from_donations db) := rfl

theorem statsInv_completeSideEffects (db : DB) (d : Donation) :
    StatsInv (completeSideEffects db d) := rfl

/-- C3, amended: the aggregate is NOT recomputed after every status change
(a failed or abandoned re-verification changes status and skips the
recompute — see the counterexample); what holds is that every branch that
completes a donation (form auto-completion, successful redirect-callback
verify on either gateway, Paystack or Flutterwave webhook completion,
manual verification) and
every deletion ends with a recompute, so the stored total_raised equals the
completed-amount sum of the resulting table, with no incremental
maintenance anywhere. -/
theorem stats_recomputed_after_completion {db db2 : DB}
    (h : RecomputingStep db db2) : StatsInv db2 := by
  cases h with
  | page f now db a ha hpos he hn =>
    have hpage : donation_page f now db = donation_page_checked f a now db := by
      simp [donation_page, ha, not_le.mpr hpos, he, hn]
    rcases donation_page_checked_shape f a now db with
      ⟨d, donors2, prayers2, ems, heq, -, -, -, -, -⟩
    rw [hpage, heq]
    rfl
  | verifyPs ps fw ref tid did now db d hd hg hs hds =>
    simp only [verify_payment, hd, hg, ite_true, if_pos]
    simp only [verify_paystack_branch]
    rw [if_pos (show ps.status = true ∧ ps.dataStatus = "success" from ⟨hs, hds⟩)]
    exact statsInv_completeSideEffects _ _
  | verifyFw ps fw ref tid did now db d hd hg hs hds htx =>
    simp only [verify_payment, hd, hg]
    rw [if_neg (by simp)]
    simp only [if_true]
    simp only [verify_flutterwave_branch]
    rw [if_pos (show fw.status = "success" ∧ fw.dataStatus = "successful" from ⟨hs, hds⟩)]
    rw [if_neg (fun hcon => hcon htx)]
    exact statsInv_completeSideEffects _ _
  | psHook mac parseBody secret body sig now db ev d hsig hp hev hd hnc =>
    simp [paystack_webhook, hsig, hp, hev, hd, hnc]
    exact statsInv_completeSideEffects _ _
  | fwHook parseBody secret body now db ev d hp hev hd hds hnc =>
    simp [flutterwave_webhook, hp, hev, hd, hds, hnc]
    exact statsInv_completeSideEffects _ _
  | manual did now db d hd hnc =>
    simp only [manual_payment_verify, hd, hnc, ne_eq, not_false_iff, ite_true]
    exact statsInv_update_from_donations _
  | del did db d hd =>
    simp only [delete_donation, hd]
    split_ifs
    · exact statsInv_update_from_donations _
    · exact statsInv_update_from_donations _

/-- Witness: manually verifying the concrete pending donation leaves the
aggregate equal to the completed sum. -/
theorem stats_recomputed_after_completion_witness :
    StatsInv (manual_payment_verify 1 2 dbPendingOnly) :=
  stats_recomputed_after_completion
    (RecomputingStep.manual 1 2 dbPendingOnly pendingDonation (by decide) (by decide))

/-- C1, amended: the redirect-callback verify path is NOT idempotent (see
the counterexample: it re-stamps completed_at and re-dispatches the
notification set on every successful call).  What holds is the webhook
half of the claim: a correctly signed charge.success delivery whose
reference resolves to an already-completed donation is a strict no-op —
the handler answers 200 and returns the store unchanged, so there is no
second status write, no stats recompute and no duplicate email on that
path. -/
theorem paystack_webhook_idempotent_when_completed
    (mac : String → String → String) (parseBody : String → Option PaystackEvent)
    (secret body sig : String) (now : Nat) (db : DB) (ev : PaystackEvent)
    (d : Donation)
    (hsig : verify_webhook_signature mac secret body sig = true)
    (hp : parseBody body = some ev) (hev : ev.event = "charge.success")
    (hfind : db.findByRef ev.reference = some d)
    (hdone : d.status = Status.completed) :
    paystack_webhook mac parseBody secret "POST" body (some sig) now db = (200, db) := by
  simp [paystack_webhook, hsig, hp, hev, hfind, hdone]

/-- Witness: a concretely signed replay of charge.success for the
completed donation returns 200 with the store untouched. -/
theorem paystack_webhook_idempotent_when_completed_witness :
    paystack_webhook (fun s b => s ++ b)
      (fun _ => some { event := "charge.success", reference := "REF1" })
      "sk" "POST" "BODY" (some "skBODY") 7 dbCompleted = (200, dbCompleted) :=
  paystack_webhook_idempotent_when_completed (fun s b => s ++ b)
    (fun _ => some { event := "charge.success", reference := "REF1" })
    "sk" "BODY" "skBODY" 7 dbCompleted
    { event := "charge.success", reference := "REF1" } completedDonation
    (by decide) rfl rfl (by decide) rfl

